import Mathlib

/-!
Shallow embedding of src/scripts/get_pomological_data.py.

The script fetches paginated HTML search results, extracts one record per
result cell, accumulates one single-row data frame per record, concatenates
them, and writes the table to a CSV file.  The embedding below models

  * Python string operations used by the script (replace, split, slicing)
    as executable functions on lists of characters;
  * the BeautifulSoup queries as lookups in a structural model of a page
    (each class-marker query becomes a list of matching elements);
  * exceptions as Option: a value of none is a raised exception that
    propagates and aborts the run;
  * the pandas frame construction with index [0], pd.concat (raising on the
    empty list, preserving index labels), and to_csv (the written table,
    including its leading index column).
-/

namespace Pomo

/-- Python str.replace for a nonempty pattern, on lists of characters.
The skip counter drops the remainder of an already-matched pattern, so
matches are non-overlapping and found left to right, as in Python. -/
def replaceGo (pat rep : List Char) : List Char → Nat → List Char
  | [], _ => []
  | _ :: rest, skip + 1 => replaceGo pat rep rest skip
  | c :: rest, 0 =>
    if pat.isPrefixOf (c :: rest) ∧ pat ≠ [] then
      rep ++ replaceGo pat rep rest (pat.length - 1)
    else
      c :: replaceGo pat rep rest 0

/-- Python str.replace (all occurrences) on lists of characters. -/
def listReplace (pat rep l : List Char) : List Char :=
  replaceGo pat rep l 0

/-- Python s.replace(old, new) for a nonempty old, on strings. -/
def pyReplace (s old new : String) : String :=
  ⟨listReplace old.data new.data s.data⟩

/-- Number of positions of l at which pat occurs (as a prefix of the
corresponding suffix).  Used to state containment of a pattern
exactly once. -/
def matchCount (pat : List Char) : List Char → Nat
  | [] => 0
  | c :: rest => (if pat.isPrefixOf (c :: rest) then 1 else 0) + matchCount pat rest

/-- Python str.split for a nonempty separator, on lists of characters.
The skip counter consumes the remainder of a matched separator. -/
def splitGo (sep : List Char) : List Char → Nat → List (List Char)
  | [], _ => [[]]
  | _ :: rest, skip + 1 => splitGo sep rest skip
  | c :: rest, 0 =>
    if sep.isPrefixOf (c :: rest) ∧ sep ≠ [] then
      [] :: splitGo sep rest (sep.length - 1)
    else
      match splitGo sep rest 0 with
      | [] => [[c]]
      | s :: ss => (c :: s) :: ss

/-- Python s.split(sep) for a nonempty sep, on strings. -/
def pySplit (s sep : String) : List String :=
  (splitGo sep.data s.data 0).map (fun l => ⟨l⟩)

/-- The composed stripping used by the script:
text.replace(chr(10), empty).replace(chr(9), empty), i.e. removal of all
newline and tab characters. -/
def stripNT (s : String) : String :=
  pyReplace (pyReplace s "\n" "") "\t" ""

/-- Python s[n:] slicing, by code points. -/
def pyDrop (s : String) (n : Nat) : String :=
  ⟨s.data.drop n⟩

/-- The IMG base constant of the script (source line 36). -/
def IMG_BASE_URL : String := "https://naldc-legacy.nal.usda.gov/"

/-- One HTML element, as far as the script observes it: its text and the
src attributes of its nested img elements (in document order). -/
structure Elem where
  text : String
  imgs : List String
deriving DecidableEq

/-- One result cell (class marker: document blacklight-pdf).  Each field
holds the elements matching the corresponding class-marker query of the
script, in document order. -/
structure Cell where
  extent_format_facet : List Elem
  name_facet : List Elem
  subject : List Elem
  year_facet : List Elem
  specimen_identifier_s : List Elem
deriving DecidableEq

/-- The record built for one cell (source lines 123-131). -/
structure PaintingRecord where
  painting_index : Option String
  fruit : Option String
  authors : Option String
  subjects : Option String
  year : Option String
  image : String
  thumbnail_image : String
deriving DecidableEq

/-- A results container (class marker grid_12). -/
structure Container where
  cells : List Cell
deriving DecidableEq

/-- One fetched page, as far as the script observes it: the elements
matching the grid_12 query. -/
structure Page where
  grid12 : List Container
deriving DecidableEq

/-- Extraction of one record from one cell (source lines 80-131).
A result of none is an uncaught exception aborting the run:
the name-element lookup at index 0 (line 86), the specimen-identifier
lookup at index 1 and the nested img lookup at index 0 (line 119) are
unguarded; the per-field lookups for painting_index, fruit, authors,
subjects and year are inside try/except blocks and fall back to None. -/
def extractRecord (img : Cell) : Option PaintingRecord :=
  match img.extent_format_facet[0]? with
  | none => none
  | some nameEl =>
    let name_info := pySplit (stripNT nameEl.text) "."
    match img.specimen_identifier_s[1]? with
    | none => none
    | some imgEl =>
      match imgEl.imgs[0]? with
      | none => none
      | some src =>
        let thumbnail_image := IMG_BASE_URL ++ pyDrop src 3
        some { painting_index := name_info[0]?
               fruit := name_info[1]?
               authors := (img.name_facet[1]?).map Elem.text
               subjects := (img.subject[1]?).map (fun e => stripNT e.text)
               year := (img.year_facet[1]?).map (fun e => stripNT e.text)
               image := pyReplace thumbnail_image "thumbnail" "screen"
               thumbnail_image := thumbnail_image }

/-- Monadic map over Option: the loop body raising on some element makes
the whole loop raise, as a Python for loop does. -/
def optMapM (f : α → Option β) : List α → Option (List β)
  | [] => some []
  | x :: xs =>
    match f x with
    | none => none
    | some y =>
      match optMapM f xs with
      | none => none
      | some ys => some (y :: ys)

/-- Processing of one fetched page (source lines 75-137): the container
lookup search_results[0] is unguarded, then every cell is extracted. -/
def processPage (page : Page) : Option (List PaintingRecord) :=
  match page.grid12[0]? with
  | none => none
  | some container => optMapM extractRecord container.cells

/-- Fetch plus extraction for one offset.  The fetch function models
requests.get plus BeautifulSoup parsing; none is a network or HTTP
failure aborting the run. -/
def processOffset (fetch : Int → Option Page) (img_num : Int) : Option (List PaintingRecord) :=
  match fetch img_num with
  | none => none
  | some page => processPage page

/-- Length of Python range(start, stop, step) for a positive step. -/
def pyRangeLen (start stop step : Int) : Nat :=
  if start < stop ∧ 0 < step then ((stop - start).toNat + step.toNat - 1) / step.toNat else 0

/-- Python range(start, stop, step) for a positive step (the script uses
step 20, source line 65). -/
def pyRange (start stop step : Int) : List Int :=
  (List.range (pyRangeLen start stop step)).map (fun i => start + step * (i : Int))

/-- The single-row frame pd.DataFrame(wc_painting, index=[0]) built for one
record (source line 134): one row whose index label is 0. -/
def mkFrame (r : PaintingRecord) : List (Nat × PaintingRecord) :=
  [(0, r)]

/-- pd.concat: raises ValueError on an empty list of frames, otherwise
concatenates the rows, preserving the index label of each row. -/
def pdConcat (dfs : List (List (Nat × PaintingRecord))) : Option (List (Nat × PaintingRecord)) :=
  if dfs.isEmpty then none else some dfs.flatten

/-- Outcome of a successful run: the table written to the CSV file
(rows paired with their index labels, as to_csv writes them), and the
value the Python function returns to its caller. -/
structure RunResult where
  csv : List (Nat × PaintingRecord)
  ret : Option (List (Nat × PaintingRecord))
deriving DecidableEq

/-- The whole run (source lines 39-145): iterate offsets, fetch and extract,
build one single-row frame per record, concatenate all frames once after
the loop, write the result to the CSV file.  A result of none is an
uncaught exception: the run aborts and no file is written.  The function
body of the script has no return statement, so on success the Python
return value is None, modelled by ret := none. -/
def get_pomological_data (fetch : Int → Option Page) (start e : Int) : Option RunResult :=
  match optMapM (processOffset fetch) (pyRange start e 20) with
  | none => none
  | some pageRecs =>
    (pdConcat ((pageRecs.flatten).map mkFrame)).map
      (fun all_pomo_df => { csv := all_pomo_df, ret := none })

/-- An element with the given text and no nested img. -/
def elemT (t : String) : Elem :=
  { text := t, imgs := [] }

/-- An element whose only observed content is one nested img src. -/
def imgElem (src : String) : Elem :=
  { text := "", imgs := [src] }

/-- A fully populated cell: name text splits into two segments, a label
plus a data element for each facet, and a specimen identifier whose second
element carries a thumbnail img. -/
def cellA : Cell :=
  { extent_format_facet := [elemT "1234.Apple"]
    name_facet := [elemT "Author:", elemT "Passmore, Deborah"]
    subject := [elemT "Subject:", elemT "Apples"]
    year_facet := [elemT "Year:", elemT "1898"]
    specimen_identifier_s := [elemT "Specimen:", imgElem "../images/thumbnail/POM1234.jpg"] }

/-- The record extracted from cellA. -/
def recA : PaintingRecord :=
  { painting_index := some "1234"
    fruit := some "Apple"
    authors := some "Passmore, Deborah"
    subjects := some "Apples"
    year := some "1898"
    image := "https://naldc-legacy.nal.usda.gov/images/screen/POM1234.jpg"
    thumbnail_image := "https://naldc-legacy.nal.usda.gov/images/thumbnail/POM1234.jpg" }

/-- A cell with a dotless name text, no author element at all and only a
label subject element: the guarded fields fall back to None while the
record is still emitted. -/
def cellB : Cell :=
  { extent_format_facet := [elemT "5678"]
    name_facet := []
    subject := [elemT "Subject:"]
    year_facet := [elemT "Year:", elemT "1900"]
    specimen_identifier_s := [elemT "Specimen:", imgElem "../images/thumbnail/POM5678.jpg"] }

/-- The record extracted from cellB. -/
def recB : PaintingRecord :=
  { painting_index := some "5678"
    fruit := none
    authors := none
    subjects := none
    year := some "1900"
    image := "https://naldc-legacy.nal.usda.gov/images/screen/POM5678.jpg"
    thumbnail_image := "https://naldc-legacy.nal.usda.gov/images/thumbnail/POM5678.jpg" }

/-- A cell like cellB but with no element at all matching the name class
marker: the unguarded lookup at source line 86 raises. -/
def cellNoName : Cell :=
  { extent_format_facet := []
    name_facet := [elemT "Author:", elemT "Passmore, Deborah"]
    subject := [elemT "Subject:", elemT "Apples"]
    year_facet := [elemT "Year:", elemT "1898"]
    specimen_identifier_s := [elemT "Specimen:", imgElem "../images/thumbnail/POM1234.jpg"] }

/-- A cell with only one element matching the specimen-identifier class
marker: the unguarded lookup at source line 119 raises. -/
def cellNoImg : Cell :=
  { extent_format_facet := [elemT "1234.Apple"]
    name_facet := [elemT "Author:", elemT "Passmore, Deborah"]
    subject := [elemT "Subject:", elemT "Apples"]
    year_facet := [elemT "Year:", elemT "1898"]
    specimen_identifier_s := [elemT "Specimen:"] }

/-- A single page whose container holds two well-formed cells. -/
def pageTwo : Page :=
  { grid12 := [{ cells := [cellA, cellB] }] }

/-- A fetch function serving pageTwo at offset 0 and failing elsewhere. -/
def fetchTwo : Int → Option Page :=
  fun n => if n = 0 then some pageTwo else none

/-- A fetch function modelling a network failure at every offset. -/
def fetchNone : Int → Option Page :=
  fun _ => none

/-- A single page whose container holds one cell with a missing
specimen-identifier data element. -/
def pageBad : Page :=
  { grid12 := [{ cells := [cellNoImg] }] }

/-- A fetch function serving pageBad at every offset. -/
def fetchBad : Int → Option Page :=
  fun _ => some pageBad

/-- The run outcome of fetchTwo over the single page start=0, end=20. -/
def resTwo : RunResult :=
  { csv := [(0, recA), (0, recB)], ret := none }

/-- Python split never yields an empty list of segments. -/
theorem splitGo_ne_nil (sep : List Char) :
    ∀ (l : List Char) (skip : Nat), splitGo sep l skip ≠ []
  | [], _ => by simp [splitGo]
  | _ :: rest, skip + 1 => splitGo_ne_nil sep rest skip
  | c :: rest, 0 => by
    unfold splitGo
    split
    · simp
    · split <;> simp

/-- The first segment of a Python split always exists. -/
theorem pySplit_getzero (s sep : String) : ∃ x, (pySplit s sep)[0]? = some x := by
  unfold pySplit
  rcases h : splitGo sep.data s.data 0 with _ | ⟨a, t⟩
  · exact absurd h (splitGo_ne_nil sep.data s.data 0)
  · exact ⟨⟨a⟩, by simp⟩

/-- A skip counter equal to the length of a leading block consumes exactly
that block. -/
theorem replaceGo_skip_append (pat rep : List Char) :
    ∀ (x l : List Char), replaceGo pat rep (x ++ l) x.length = replaceGo pat rep l 0
  | [], _ => rfl
  | _ :: x, l => replaceGo_skip_append pat rep x l

/-- On a list with no occurrence of the pattern, replace is the identity. -/
theorem replaceGo_of_matchCount_zero (pat rep : List Char) :
    ∀ l : List Char, matchCount pat l = 0 → replaceGo pat rep l 0 = l
  | [], _ => rfl
  | c :: rest, h => by
    by_cases hp : pat.isPrefixOf (c :: rest)
    · rw [matchCount, if_pos hp] at h
      omega
    · rw [matchCount, if_neg hp] at h
      have h2 : matchCount pat rest = 0 := by omega
      unfold replaceGo
      rw [if_neg (fun hc => hp hc.1)]
      rw [replaceGo_of_matchCount_zero pat rep rest h2]

/-- Occurrences of a pattern in a suffix are occurrences in the whole. -/
theorem matchCount_le_append (pat : List Char) :
    ∀ (x l : List Char), matchCount pat l ≤ matchCount pat (x ++ l)
  | [], _ => Nat.le_refl _
  | c :: x, l => by
    rw [List.cons_append, matchCount]
    exact Nat.le_trans (matchCount_le_append pat x l) (Nat.le_add_left _ _)

/-- When the pattern occurs exactly once, replacement splits the list at
that occurrence and substitutes the replacement there. -/
theorem replace_single_occurrence (pat rep : List Char) (hpat : pat ≠ []) :
    ∀ l : List Char, matchCount pat l = 1 →
      ∃ a b, l = a ++ pat ++ b ∧ replaceGo pat rep l 0 = a ++ rep ++ b
  | [], h => by simp [matchCount] at h
  | c :: rest, h => by
    by_cases hp : pat.isPrefixOf (c :: rest)
    · rw [matchCount, if_pos hp] at h
      have hrest : matchCount pat rest = 0 := by omega
      obtain ⟨t, ht⟩ := List.isPrefixOf_iff_prefix.mp hp
      rcases hq : pat with _ | ⟨p, ps⟩
      · exact absurd hq hpat
      · subst hq
        rw [List.cons_append] at ht
        injection ht with h1 h2
        refine ⟨[], t, by simp [← h1, ← h2], ?_⟩
        unfold replaceGo
        rw [if_pos ⟨hp, hpat⟩]
        have hskip : (p :: ps).length - 1 = ps.length := by simp
        rw [hskip, ← h2, replaceGo_skip_append]
        have ht0 : matchCount (p :: ps) t = 0 := by
          have hle := matchCount_le_append (p :: ps) ps t
          rw [h2, hrest] at hle
          omega
        rw [replaceGo_of_matchCount_zero _ _ t ht0]
        simp
    · rw [matchCount, if_neg hp] at h
      simp only [Nat.zero_add] at h
      obtain ⟨a, b, hab, hrep⟩ := replace_single_occurrence pat rep hpat rest h
      refine ⟨c :: a, b, by simp [hab], ?_⟩
      unfold replaceGo
      rw [if_neg (fun hc => hp hc.1), hrep]
      simp

/-- A raising element makes the whole monadic map raise. -/
theorem optMapM_eq_none_of_mem (f : α → Option β) :
    ∀ (l : List α) (x : α), x ∈ l → f x = none → optMapM f l = none
  | [], x, hx, _ => absurd hx (List.not_mem_nil x)
  | c :: t, x, hx, hfx => by
    rcases List.mem_cons.mp hx with rfl | hx2
    · simp [optMapM, hfx]
    · have htail := optMapM_eq_none_of_mem f t x hx2 hfx
      cases hc : f c <;> simp [optMapM, hc, htail]

/-- A successful monadic map succeeded on every element. -/
theorem optMapM_mem_some (f : α → Option β) :
    ∀ (l : List α) (ys : List β), optMapM f l = some ys → ∀ x ∈ l, ∃ y, f x = some y
  | [], _, _, x, hx => absurd hx (List.not_mem_nil x)
  | c :: t, ys, h, x, hx => by
    rcases hc : f c with _ | y
    · rw [optMapM, hc] at h
      exact absurd h (by simp)
    · rcases ht : optMapM f t with _ | zs
      · rw [optMapM, hc, ht] at h
        exact absurd h (by simp)
      · rcases List.mem_cons.mp hx with rfl | hx2
        · exact ⟨y, hc⟩
        · exact optMapM_mem_some f t zs ht x hx2

/-- A successful monadic map preserves length. -/
theorem optMapM_length (f : α → Option β) :
    ∀ (l : List α) (ys : List β), optMapM f l = some ys → ys.length = l.length
  | [], ys, h => by
    rw [optMapM] at h
    cases h
    rfl
  | c :: t, ys, h => by
    rcases hc : f c with _ | y
    · rw [optMapM, hc] at h
      exact absurd h (by simp)
    · rcases ht : optMapM f t with _ | zs
      · rw [optMapM, hc, ht] at h
        exact absurd h (by simp)
      · rw [optMapM, hc, ht] at h
        cases h
        simp [optMapM_length f t zs ht]

/-- Characterization of a successful extraction: when the three unguarded
lookups succeed, the record is emitted and every field is determined by
its own lookup alone. -/
theorem extractRecord_eq_some (c : Cell) (el sp : Elem) (src : String)
    (h1 : c.extent_format_facet[0]? = some el)
    (h2 : c.specimen_identifier_s[1]? = some sp)
    (h3 : sp.imgs[0]? = some src) :
    extractRecord c = some
      { painting_index := (pySplit (stripNT el.text) ".")[0]?
        fruit := (pySplit (stripNT el.text) ".")[1]?
        authors := (c.name_facet[1]?).map Elem.text
        subjects := (c.subject[1]?).map (fun x => stripNT x.text)
        year := (c.year_facet[1]?).map (fun x => stripNT x.text)
        image := pyReplace (IMG_BASE_URL ++ pyDrop src 3) "thumbnail" "screen"
        thumbnail_image := IMG_BASE_URL ++ pyDrop src 3 } := by
  unfold extractRecord
  simp only [h1, h2, h3]

/-- Inversion of a successful extraction. -/
theorem extractRecord_inv (c : Cell) (r : PaintingRecord) (h : extractRecord c = some r) :
    ∃ el sp src, c.extent_format_facet[0]? = some el ∧
      c.specimen_identifier_s[1]? = some sp ∧ sp.imgs[0]? = some src ∧
      r.thumbnail_image = IMG_BASE_URL ++ pyDrop src 3 ∧
      r.image = pyReplace r.thumbnail_image "thumbnail" "screen" ∧
      r.painting_index = (pySplit (stripNT el.text) ".")[0]? := by
  rcases hA : c.extent_format_facet[0]? with _ | el
  · unfold extractRecord at h
    simp only [hA] at h
    exact Option.noConfusion h
  rcases hB : c.specimen_identifier_s[1]? with _ | sp
  · unfold extractRecord at h
    simp only [hA, hB] at h
    exact Option.noConfusion h
  rcases hC : sp.imgs[0]? with _ | src
  · unfold extractRecord at h
    simp only [hA, hB, hC] at h
    exact Option.noConfusion h
  rw [extractRecord_eq_some c el sp src hA hB hC] at h
  injection h with h
  subst h
  exact ⟨el, sp, src, rfl, rfl, hC, rfl, rfl, rfl⟩


/-- The index column of the concatenation of single-row frames: one label
0 per record. -/
theorem flatten_map_mkFrame :
    ∀ recs : List PaintingRecord,
      ((recs.map mkFrame).flatten.map Prod.fst = List.replicate recs.length 0) ∧
      (recs.map mkFrame).flatten.length = recs.length
  | [] => by simp
  | r :: rs => by
    obtain ⟨ih1, ih2⟩ := flatten_map_mkFrame rs
    refine ⟨?_, ?_⟩ <;> simp [mkFrame, ih1, ih2, List.replicate_succ]

/-- Inversion of a successful run: the page loop succeeded at every offset,
the written table is the concatenation of the frames of all extracted
records, and the Python return value is None. -/
theorem run_some_inv (fetch : Int → Option Page) (start e : Int) (res : RunResult)
    (h : get_pomological_data fetch start e = some res) :
    ∃ pageRecs, optMapM (processOffset fetch) (pyRange start e 20) = some pageRecs ∧
      res.csv = ((pageRecs.flatten).map mkFrame).flatten ∧
      pageRecs.flatten ≠ [] ∧ res.ret = none := by
  rcases hm : optMapM (processOffset fetch) (pyRange start e 20) with _ | pageRecs
  · unfold get_pomological_data at h
    simp only [hm] at h
    exact Option.noConfusion h
  · unfold get_pomological_data at h
    simp only [hm] at h
    rcases Option.map_eq_some'.mp h with ⟨df, hdf, hres⟩
    unfold pdConcat at hdf
    split at hdf
    · exact Option.noConfusion hdf
    · injection hdf with hdf
      subst hdf
      subst hres
      refine ⟨pageRecs, rfl, rfl, ?_, rfl⟩
      intro hnil
      simp_all

/-- Claim C1, counterexample: a single-page run (start=0, end=20) that
finds two cells writes a table whose leading index column is [0, 0], not
[0, 1]: every single-row frame is built with index [0] (source line 134)
and pd.concat preserves the labels (line 140). -/
theorem C1_counterexample :
    (get_pomological_data fetchTwo 0 20).map (fun res => res.csv.map Prod.fst) = some [0, 0] ∧
    some [0, 0] ≠ some (List.range 2) :=
  ⟨by decide, by decide⟩

/-- Claim C1 as amended: for a single-page run (start=0, end=20) that
finds k cells, the leading index column of the written table contains k
copies of the label 0, one per emitted record, and the number of rows
equals the number of cells of the container of the page. -/
theorem C1_index_column (fetch : Int → Option Page) (res : RunResult)
    (h : get_pomological_data fetch 0 20 = some res) :
    res.csv.map Prod.fst = List.replicate res.csv.length 0 ∧
    ∀ page cont, fetch 0 = some page → page.grid12[0]? = some cont →
      res.csv.length = cont.cells.length := by
  obtain ⟨pageRecs, hm, hcsv, hne, hret⟩ := run_some_inv fetch 0 20 res h
  obtain ⟨hfst, hlen⟩ := flatten_map_mkFrame pageRecs.flatten
  constructor
  · rw [hcsv, hfst, hlen]
  · intro page cont hpage hcont
    have hrange : pyRange 0 20 20 = [0] := by decide
    rw [hrange] at hm
    rcases hp0 : processOffset fetch 0 with _ | recs0
    · simp only [optMapM, hp0] at hm
      exact Option.noConfusion hm
    · simp only [optMapM, hp0] at hm
      injection hm with hm
      subst hm
      unfold processOffset at hp0
      rw [hpage] at hp0
      replace hp0 : processPage page = some recs0 := hp0
      unfold processPage at hp0
      rw [hcont] at hp0
      replace hp0 : optMapM extractRecord cont.cells = some recs0 := hp0
      have hl := optMapM_length extractRecord cont.cells recs0 hp0
      rw [hcsv, hlen]
      simp [hl]

/-- Witness for the amended C1: the concrete two-cell run has index column
[0, 0] = replicate 2 0, and two rows for the two cells. -/
theorem C1_witness :
    resTwo.csv.map Prod.fst = List.replicate resTwo.csv.length 0 ∧ resTwo.csv.length = 2 := by
  obtain ⟨h1, h2⟩ := C1_index_column fetchTwo resTwo (by decide)
  exact ⟨h1, h2 pageTwo { cells := [cellA, cellB] } (by decide) (by decide)⟩

/-- Claim C2: the script docstring documents a returned DataFrame, but the
function body has no return statement, so a successful run returns None
to the caller even though the table was built and written.  Evaluated on
the concrete two-cell run: the run succeeds and the returned value is
None. -/
theorem C2_return_is_none :
    (get_pomological_data fetchTwo 0 20).isSome = true ∧
    (get_pomological_data fetchTwo 0 20).map RunResult.ret = some none :=
  ⟨by decide, by decide⟩

/-- Claim C3, counterexample: a cell with no element at all matching the
name class marker makes the unguarded lookup at source line 86 raise, so
no record is emitted and the run aborts, although every other field of
the cell (including the image pair) is present. -/
theorem C3_counterexample : extractRecord cellNoName = none := by decide

/-- Claim C3 as amended: provided the name element exists and the image
pair is extractable, each of the four guarded text fields is individually
fail-soft: each one is determined by its own lookup alone, a missing or
malformed sub-element yields null for that field only, and the record is
still emitted. -/
theorem C3_fail_soft_fields (c : Cell) (el sp : Elem) (src : String)
    (h1 : c.extent_format_facet[0]? = some el)
    (h2 : c.specimen_identifier_s[1]? = some sp)
    (h3 : sp.imgs[0]? = some src) :
    ∃ r, extractRecord c = some r ∧
      r.painting_index = (pySplit (stripNT el.text) ".")[0]? ∧
      r.fruit = (pySplit (stripNT el.text) ".")[1]? ∧
      r.authors = (c.name_facet[1]?).map Elem.text ∧
      r.subjects = (c.subject[1]?).map (fun x => stripNT x.text) ∧
      r.year = (c.year_facet[1]?).map (fun x => stripNT x.text) :=
  ⟨_, extractRecord_eq_some c el sp src h1 h2 h3, rfl, rfl, rfl, rfl, rfl⟩

/-- Witness for the amended C3: the cell with missing author and subject
data still yields a record, with exactly those fields null. -/
theorem C3_witness :
    ∃ r, extractRecord cellB = some r ∧ r.authors = none ∧ r.subjects = none ∧
      r.year = some "1900" ∧ r.painting_index = some "5678" ∧ r.fruit = none := by
  obtain ⟨r, hr, hpi, hfr, hau, hsu, hye⟩ :=
    C3_fail_soft_fields cellB (elemT "5678") (imgElem "../images/thumbnail/POM5678.jpg")
      "../images/thumbnail/POM5678.jpg" (by decide) (by decide) (by decide)
  exact ⟨r, hr, hau.trans (by decide), hsu.trans (by decide), hye.trans (by decide),
    hpi.trans (by decide), hfr.trans (by decide)⟩

/-- Claim C4: the image-pair extraction is unguarded.  A cell with fewer
than two specimen-identifier elements, or whose second such element has
no nested img, makes extraction raise; and if such a cell occurs on any
fetched page of a run, the whole run aborts with no record emitted. -/
theorem C4_image_pair_fatal (c : Cell)
    (h : c.specimen_identifier_s[1]? = none ∨
         ∃ sp, c.specimen_identifier_s[1]? = some sp ∧ sp.imgs[0]? = none) :
    extractRecord c = none ∧
    ∀ (fetch : Int → Option Page) (start e : Int) (page : Page) (cont : Container),
      (∃ o ∈ pyRange start e 20, fetch o = some page) →
      page.grid12[0]? = some cont → c ∈ cont.cells →
      get_pomological_data fetch start e = none := by
  have hnone : extractRecord c = none := by
    rcases hA : c.extent_format_facet[0]? with _ | el
    · unfold extractRecord
      simp only [hA]
    · unfold extractRecord
      simp only [hA]
      rcases h with hs | ⟨sp, hsp, himg⟩
      · simp only [hs]
      · simp only [hsp, himg]
  refine ⟨hnone, ?_⟩
  rintro fetch start e page cont ⟨o, ho, hfo⟩ hcont hc
  have hpp : processPage page = none := by
    unfold processPage
    rw [hcont]
    exact optMapM_eq_none_of_mem extractRecord cont.cells c hc hnone
  have hpo : processOffset fetch o = none := by
    unfold processOffset
    rw [hfo]
    exact hpp
  have hall : optMapM (processOffset fetch) (pyRange start e 20) = none :=
    optMapM_eq_none_of_mem (processOffset fetch) (pyRange start e 20) o ho hpo
  unfold get_pomological_data
  simp only [hall]

/-- Witness for C4: the concrete cell lacking a second specimen-identifier
element aborts its own extraction and the whole run that contains it. -/
theorem C4_witness :
    extractRecord cellNoImg = none ∧ get_pomological_data fetchBad 0 20 = none := by
  obtain ⟨h1, h2⟩ := C4_image_pair_fatal cellNoImg (Or.inl (by decide))
  exact ⟨h1, h2 fetchBad 0 20 pageBad { cells := [cellNoImg] }
    ⟨0, by decide, rfl⟩ (by decide) (by decide)⟩

/-- Claim C5: in every emitted record, image equals thumbnail_image with
the substring thumbnail replaced by screen (source line 120); and when
thumbnail_image contains thumbnail exactly once, image is identical to
thumbnail_image except for that single substitution. -/
theorem C5_image_from_thumbnail (c : Cell) (r : PaintingRecord)
    (h : extractRecord c = some r) :
    r.image = pyReplace r.thumbnail_image "thumbnail" "screen" ∧
    (matchCount "thumbnail".data r.thumbnail_image.data = 1 →
      ∃ a b, r.thumbnail_image.data = a ++ "thumbnail".data ++ b ∧
        r.image.data = a ++ "screen".data ++ b) := by
  obtain ⟨el, sp, src, h1, h2, h3, hthumb, himg, hpi⟩ := extractRecord_inv c r h
  refine ⟨himg, fun honce => ?_⟩
  obtain ⟨a, b, hab, hrep⟩ :=
    replace_single_occurrence "thumbnail".data "screen".data (by decide)
      r.thumbnail_image.data honce
  refine ⟨a, b, hab, ?_⟩
  rw [himg]
  exact hrep

/-- Witness for C5: the concrete record of cellA, whose thumbnail URL
contains thumbnail exactly once. -/
theorem C5_witness :
    recA.image = pyReplace recA.thumbnail_image "thumbnail" "screen" ∧
    ∃ a b, recA.thumbnail_image.data = a ++ "thumbnail".data ++ b ∧
      recA.image.data = a ++ "screen".data ++ b := by
  obtain ⟨h1, h2⟩ := C5_image_from_thumbnail cellA recA (by decide)
  exact ⟨h1, h2 (by decide)⟩

/-- Claim C6: the name text, stripped of newline and tab characters, is
split on the dot character; the first segment becomes painting_index and
the second becomes fruit, each null when missing, while the remaining
fields are still extracted (year shown as representative). -/
theorem C6_name_split (c : Cell) (el sp : Elem) (src : String)
    (h1 : c.extent_format_facet[0]? = some el)
    (h2 : c.specimen_identifier_s[1]? = some sp)
    (h3 : sp.imgs[0]? = some src) :
    ∃ r, extractRecord c = some r ∧
      r.painting_index = (pySplit (stripNT el.text) ".")[0]? ∧
      r.fruit = (pySplit (stripNT el.text) ".")[1]? ∧
      r.year = (c.year_facet[1]?).map (fun x => stripNT x.text) :=
  ⟨_, extractRecord_eq_some c el sp src h1 h2 h3, rfl, rfl, rfl⟩

/-- Witness for C6, the two scenarios of the claim: name text 1234.Apple
yields painting_index 1234 and fruit Apple; dotless name text 5678 yields
painting_index 5678 and null fruit, with the year still extracted. -/
theorem C6_witness :
    (∃ r, extractRecord cellA = some r ∧ r.painting_index = some "1234" ∧
      r.fruit = some "Apple") ∧
    (∃ r, extractRecord cellB = some r ∧ r.painting_index = some "5678" ∧
      r.fruit = none ∧ r.year = some "1900") := by
  constructor
  · obtain ⟨r, hr, hpi, hfr, _⟩ :=
      C6_name_split cellA (elemT "1234.Apple") (imgElem "../images/thumbnail/POM1234.jpg")
        "../images/thumbnail/POM1234.jpg" (by decide) (by decide) (by decide)
    exact ⟨r, hr, hpi.trans (by decide), hfr.trans (by decide)⟩
  · obtain ⟨r, hr, hpi, hfr, hye⟩ :=
      C6_name_split cellB (elemT "5678") (imgElem "../images/thumbnail/POM5678.jpg")
        "../images/thumbnail/POM5678.jpg" (by decide) (by decide) (by decide)
    exact ⟨r, hr, hpi.trans (by decide), hfr.trans (by decide), hye.trans (by decide)⟩

/-- Claim C7: authors, subjects and year are taken from the element at
index 1 of their class-marker match lists (the second match, never the
first), with subjects and year additionally stripped of newline and tab
characters; each is null when fewer than two matches exist. -/
theorem C7_second_match (c : Cell) (el sp : Elem) (src : String)
    (h1 : c.extent_format_facet[0]? = some el)
    (h2 : c.specimen_identifier_s[1]? = some sp)
    (h3 : sp.imgs[0]? = some src) :
    ∃ r, extractRecord c = some r ∧
      r.authors = (c.name_facet[1]?).map Elem.text ∧
      r.subjects = (c.subject[1]?).map (fun x => stripNT x.text) ∧
      r.year = (c.year_facet[1]?).map (fun x => stripNT x.text) ∧
      (c.name_facet.length < 2 → r.authors = none) ∧
      (c.subject.length < 2 → r.subjects = none) ∧
      (c.year_facet.length < 2 → r.year = none) := by
  refine ⟨_, extractRecord_eq_some c el sp src h1 h2 h3, rfl, rfl, rfl, ?_, ?_, ?_⟩
  · intro hlt
    simp [List.getElem?_eq_none (show c.name_facet.length ≤ 1 by omega)]
  · intro hlt
    simp [List.getElem?_eq_none (show c.subject.length ≤ 1 by omega)]
  · intro hlt
    simp [List.getElem?_eq_none (show c.year_facet.length ≤ 1 by omega)]

/-- Witness for C7: in cellA the extracted author is the second match
(the data element), not the first (the label element); in cellB authors
(zero matches) and subjects (one match) are null. -/
theorem C7_witness :
    (∃ r, extractRecord cellA = some r ∧ r.authors = some "Passmore, Deborah" ∧
      r.authors ≠ some "Author:" ∧ r.subjects = some "Apples" ∧ r.year = some "1898") ∧
    (∃ r, extractRecord cellB = some r ∧ r.authors = none ∧ r.subjects = none) := by
  constructor
  · obtain ⟨r, hr, hau, hsu, hye, _, _, _⟩ :=
      C7_second_match cellA (elemT "1234.Apple") (imgElem "../images/thumbnail/POM1234.jpg")
        "../images/thumbnail/POM1234.jpg" (by decide) (by decide) (by decide)
    refine ⟨r, hr, hau.trans (by decide), ?_, hsu.trans (by decide), hye.trans (by decide)⟩
    rw [hau]
    decide
  · obtain ⟨r, hr, hau, hsu, _, _, _, _⟩ :=
      C7_second_match cellB (elemT "5678") (imgElem "../images/thumbnail/POM5678.jpg")
        "../images/thumbnail/POM5678.jpg" (by decide) (by decide) (by decide)
    exact ⟨r, hr, hau.trans (by decide), hsu.trans (by decide)⟩

/-- Claim C8: the table is written only once, after all pages are
processed.  If processing any offset fails structurally (network failure,
missing container, missing image-identifier data), the run returns
nothing and no file is written; conversely a successful run implies every
offset of the range was processed successfully. -/
theorem C8_all_or_nothing (fetch : Int → Option Page) (start e : Int) :
    ((∃ o ∈ pyRange start e 20, processOffset fetch o = none) →
      get_pomological_data fetch start e = none) ∧
    (∀ res, get_pomological_data fetch start e = some res →
      ∀ o ∈ pyRange start e 20, ∃ recs, processOffset fetch o = some recs) := by
  constructor
  · rintro ⟨o, ho, hpo⟩
    have hall : optMapM (processOffset fetch) (pyRange start e 20) = none :=
      optMapM_eq_none_of_mem (processOffset fetch) (pyRange start e 20) o ho hpo
    unfold get_pomological_data
    simp only [hall]
  · intro res hres o ho
    obtain ⟨pageRecs, hm, _, _, _⟩ := run_some_inv fetch start e res hres
    exact optMapM_mem_some (processOffset fetch) (pyRange start e 20) pageRecs hm o ho

/-- Witness for C8: a network failure on the only page of a run makes the
whole run abort with nothing written. -/
theorem C8_witness : get_pomological_data fetchNone 0 20 = none :=
  (C8_all_or_nothing fetchNone 0 20).1 ⟨0, by decide, rfl⟩

/-- Claim C9: when start is at least end, the offset loop runs zero times,
so the frame list stays empty and pd.concat raises on it: the run fails
with no CSV written instead of producing an empty table. -/
theorem C9_empty_range_fails (fetch : Int → Option Page) (start e : Int) (h : e ≤ start) :
    pyRange start e 20 = [] ∧ get_pomological_data fetch start e = none := by
  have hlen : pyRangeLen start e 20 = 0 := by
    unfold pyRangeLen
    rw [if_neg]
    intro hc
    omega
  have hr : pyRange start e 20 = [] := by
    unfold pyRange
    rw [hlen]
    rfl
  refine ⟨hr, ?_⟩
  unfold get_pomological_data
  rw [hr]
  rfl

/-- Witness for C9: the concrete call with start=5, end=3 fails with no
file written. -/
theorem C9_witness : pyRange 5 3 20 = [] ∧ get_pomological_data fetchNone 5 3 = none :=
  C9_empty_range_fails fetchNone 5 3 (by decide)

/-- Claim C10: splitting a string on the dot character always yields at
least one segment, so the first-segment lookup of source line 88 never
raises and painting_index is non-null in every emitted record. -/
theorem C10_painting_index_never_null (c : Cell) (r : PaintingRecord)
    (h : extractRecord c = some r) : ∃ s, r.painting_index = some s := by
  obtain ⟨el, sp, src, h1, h2, h3, hthumb, himg, hpi⟩ := extractRecord_inv c r h
  obtain ⟨x, hx⟩ := pySplit_getzero (stripNT el.text) "."
  exact ⟨x, hpi.trans hx⟩

/-- Witness for C10: even the record of the dotless cell has a non-null
painting_index. -/
theorem C10_witness : ∃ s, recB.painting_index = some s :=
  C10_painting_index_never_null cellB recB (by decide)

end Pomo
